import Mathlib

/-!
Shallow embedding of the `ai-add-generator` repository (a React front-end
around the Gemini generative API) and proofs about its specified behaviour.

The embedding covers:
* the module-level API-key startup check of the service module;
* `generateAdScript` (transport + JSON parse + error classification);
* `generateAdVideo` (submit, fixed-interval poll loop, download-link
  extraction, error classification);
* the `AdDisplay` scene-card rendering and the `App` reset handlers.

Remote calls and the platform's `JSON.parse` are modelled as inputs
(environment records / oracle functions); everything the repository's own
code does is translated directly from the source.
-/

/-! ## JSON values

The TypeScript code calls the platform's `JSON.parse` and casts the result
with `as AdScript` (a compile-time-only cast, no runtime validation).  We
model parsed JSON values with a small inductive type; numbers are modelled
as integers, which covers every numeric field the schema declares
(`sceneNumber` is declared `Type.INTEGER`). -/

inductive Json where
  | null : Json
  | bool (b : Bool) : Json
  | num (n : Int) : Json
  | str (s : String) : Json
  | arr (elems : List Json) : Json
  | obj (fields : List (String × Json)) : Json

/-- Field lookup on a JSON object (`undefined` on non-objects / missing keys). -/
def Json.getField : Json → String → Option Json
  | .obj fields, key => fields.lookup key
  | _, _ => none

/-! ## JavaScript string / truthiness helpers -/

/-- JavaScript `haystack.includes(needle)`: substring containment. -/
def jsIncludes (haystack needle : String) : Bool :=
  decide (needle.data <:+: haystack.data)

/-- JavaScript falsiness of a `string | undefined` value:
`undefined` and the empty string are falsy. -/
def jsFalsyStr : Option String → Bool
  | none => true
  | some s => s == ""

/-! ## Error messages (verbatim from the source) -/

def apiKeyMissingMsg : String := "API_KEY environment variable not set"

def rateLimitedMsg : String := "API rate limit exceeded. Please try again later."

def scriptGenericMsg : String :=
  "Failed to generate ad script. The model may have returned an invalid response."

def missingResultMsg : String :=
  "Video generation completed, but no download link was found."

def quotaExceededMsg : String :=
  "API quota exceeded. Please check your plan and billing details, or try again later."

def videoGenericMsg : String :=
  "Failed to generate video ad. An unexpected error occurred."

/-! ## Module-level startup check

Source: `if (!process.env.API_KEY) { throw new Error("API_KEY environment
variable not set"); }` followed by construction of the client.  The
environment variable is a `string | undefined`; the `!` test is JavaScript
falsiness, so an unset variable and an empty string both throw. -/

/-- Startup of the service module, as a function of the `API_KEY`
environment value (`none` = unset). Returns the configured key on success. -/
def moduleInit (apiKey : Option String) : Except String String :=
  if jsFalsyStr apiKey then .error apiKeyMissingMsg
  else .ok (apiKey.getD "")

/-! ## `generateAdScript`

Source lines 55–101 of the service module.  The try-block performs the
single `generateContent` transport call, takes `response.text.trim()` and
`JSON.parse`s it; the catch-block classifies the thrown error by whether
its message contains the substring `'429'`. -/

/-- Environment of one `generateAdScript` run: the outcome of the single
`generateContent` call (`.error msg` = the call threw an `Error` with that
message, `.ok text` = the response text), and the platform `JSON.parse`
(`.error msg` = it threw a `SyntaxError` with that message). -/
structure ScriptEnv where
  response : Except String String
  parse : String → Except String Json

/-- The try-block of `generateAdScript`: transport, trim, parse.  The
`as AdScript` cast in the source is a no-op, so the parsed JSON value is
returned unvalidated. -/
def scriptTryBlock (env : ScriptEnv) : Except String Json :=
  match env.response with
  | .error msg => .error msg
  | .ok text => env.parse text.trim

/-- The catch-block of `generateAdScript`: a message containing `'429'`
becomes the rate-limit error, anything else the generic error. -/
def classifyScriptError (msg : String) : String :=
  if jsIncludes msg "429" then rateLimitedMsg else scriptGenericMsg

/-- `generateAdScript` as a function of its environment. -/
def generateAdScript (env : ScriptEnv) : Except String Json :=
  match scriptTryBlock env with
  | .ok j => .ok j
  | .error msg => .error (classifyScriptError msg)

/-- Issue the next provider call: returns the provider's outcome for call
index `n` together with the next call index (so `.2 - n` counts calls). -/
def callProvider (provider : Nat → Except String String) (n : Nat) :
    Except String String × Nat :=
  (provider n, n + 1)

/-- `generateAdScript` with the provider modelled as an oracle of
successive call outcomes; the second component is the number of provider
calls issued, read off the threaded call index.  The body issues exactly
one call (`generateContent`), mirroring the straight-line source. -/
def generateAdScriptTraced (provider : Nat → Except String String)
    (parse : String → Except String Json) : Except String Json × Nat :=
  let step := callProvider provider 0
  (generateAdScript { response := step.1, parse := parse }, step.2)

/-! ## Shape of the `AdScript` schema

`adScriptSchema` (source lines 10–53) requires `title`, `tagline` and
`scenes`; each scene requires an integer `sceneNumber` and four strings.
The client never checks any of this after parsing. -/

/-- Does a parsed JSON value have the three required top-level fields of
the `AdScript` schema (a string `title`, a string `tagline`, an array
`scenes`)? -/
def isAdScriptShaped (j : Json) : Bool :=
  (match j.getField "title" with | some (.str _) => true | _ => false) &&
  (match j.getField "tagline" with | some (.str _) => true | _ => false) &&
  (match j.getField "scenes" with | some (.arr _) => true | _ => false)

/-- The `scenes` array of a parsed JSON value, when present. -/
def scenesOf (j : Json) : Option (List Json) :=
  match j.getField "scenes" with
  | some (.arr xs) => some xs
  | _ => none

/-- The `sceneNumber` field of a parsed scene object, when an integer. -/
def sceneNumberOf (scene : Json) : Option Int :=
  match scene.getField "sceneNumber" with
  | some (.num n) => some n
  | _ => none

/-- Do the scenes of a parsed JSON value carry integer `sceneNumber`s
numbered sequentially `1, 2, 3, …` in array order? -/
def sceneNumbersSequential (j : Json) : Bool :=
  match scenesOf j with
  | none => false
  | some xs =>
      decide (xs.map sceneNumberOf
        = (List.range xs.length).map (fun i => some ((i : Int) + 1)))

/-! ## `generateAdVideo`

Source lines 104–142.  `generateVideos` yields an operation handle; the
loop `while (!operation.done)` sleeps 10000 ms and issues one
`getVideosOperation` status check per iteration; on exit the code reads
`operation.response?.generatedVideos?.[0]?.video?.uri` via optional
chaining (so absent links give `undefined`, never a crash), throws the
missing-result error when falsy, and otherwise returns
`downloadLink + "&key=" + API_KEY`.  The catch-block classifies any thrown
error by the substrings `'429'` / `'RESOURCE_EXHAUSTED'`. -/

/-- A video reference inside an operation result (`video?.uri`). -/
structure VideoRef where
  uri : Option String

/-- One generated video entry (`generatedVideos?.[0]?.video`). -/
structure GeneratedVideo where
  video : Option VideoRef

/-- The result payload of a video operation (`operation.response`). -/
structure VideoResponse where
  generatedVideos : Option (List GeneratedVideo)

/-- A remote video-generation operation handle as polled by the client. -/
structure VideoOperation where
  done : Bool
  response : Option VideoResponse

/-- The fixed delay between status checks, in milliseconds
(`setTimeout(resolve, 10000)`). -/
def POLL_INTERVAL_MS : Nat := 10000

/-- The `while (!operation.done)` poll loop.  `poll n` is the operation
state returned by the `n`-th `getVideosOperation` status check (0-based);
`checks` counts the checks issued so far and `elapsed` the milliseconds
slept so far (each iteration sleeps one interval, then issues exactly one
check).  `fuel` bounds the number of iterations we unfold; the source loop
has no bound, so exhausting any `fuel` while not done models the wait
continuing past that many intervals. -/
def pollLoop (poll : Nat → VideoOperation) (fuel : Nat) (op : VideoOperation)
    (checks elapsed : Nat) : Option (VideoOperation × Nat × Nat) :=
  if op.done then some (op, checks, elapsed)
  else
    match fuel with
    | 0 => none
    | f + 1 => pollLoop poll f (poll checks) (checks + 1) (elapsed + POLL_INTERVAL_MS)

/-- `operation.response?.generatedVideos?.[0]?.video?.uri`: optional
chaining over the result, `none` standing for `undefined`. -/
def extractDownloadLink (op : VideoOperation) : Option String :=
  op.response.bind fun r =>
    r.generatedVideos.bind fun gs =>
      gs[0]?.bind fun g =>
        g.video.bind fun v => v.uri

/-- Environment of one `generateAdVideo` run: the outcome of the initial
`generateVideos` call (`.error msg` = it threw), the successive
`getVideosOperation` results, and the configured `API_KEY`. -/
structure VideoEnv where
  start : Except String VideoOperation
  poll : Nat → VideoOperation
  apiKey : String

/-- The try-block of `generateAdVideo`: submit, poll until done, extract
the download link (`!downloadLink` — falsy — throws the missing-result
error), and append the API key.  `none` = the poll loop is still running
after `fuel` intervals. -/
def tryGenerateVideo (env : VideoEnv) (fuel : Nat) : Option (Except String String) :=
  match env.start with
  | .error msg => some (.error msg)
  | .ok op0 =>
      match pollLoop env.poll fuel op0 0 0 with
      | none => none
      | some (op, _, _) =>
          match extractDownloadLink op with
          | none => some (.error missingResultMsg)
          | some link =>
              if link = "" then some (.error missingResultMsg)
              else some (.ok (link ++ "&key=" ++ env.apiKey))

/-- The catch-block of `generateAdVideo`: messages containing `'429'` or
`'RESOURCE_EXHAUSTED'` become the quota error, anything else the generic
video error. -/
def classifyVideoError (msg : String) : String :=
  if jsIncludes msg "429" || jsIncludes msg "RESOURCE_EXHAUSTED" then quotaExceededMsg
  else videoGenericMsg

/-- `generateAdVideo` as a function of its environment: every error thrown
inside the try-block — including the missing-result throw — is caught and
re-classified by the catch-block. -/
def generateAdVideo (env : VideoEnv) (fuel : Nat) : Option (Except String String) :=
  (tryGenerateVideo env fuel).map fun r =>
    match r with
    | .ok link => .ok link
    | .error msg => .error (classifyVideoError msg)

/-! ## `AdScript` record and `AdDisplay` rendering

Source: `types.ts` and `AdDisplay` lines 119–141 — the scene section is
`adScript.scenes.map(scene => <card …/>)`, one card per scene, in array
order, with heading `SCENE {scene.sceneNumber}`. -/

/-- One beat of the commercial (`Scene` in `types.ts`). -/
structure Scene where
  sceneNumber : Int
  setting : String
  action : String
  dialogue : String
  sound : String

/-- The generated structured commercial script (`AdScript` in `types.ts`). -/
structure AdScript where
  title : String
  tagline : String
  scenes : List Scene

/-- One rendered scene card of `AdDisplay`. -/
structure SceneCard where
  heading : String
  setting : String
  sound : String
  action : String
  dialogue : String

/-- The card `AdDisplay` renders for one scene. -/
def renderSceneCard (s : Scene) : SceneCard :=
  { heading := "SCENE " ++ toString s.sceneNumber
    setting := s.setting
    sound := s.sound
    action := s.action
    dialogue := s.dialogue }

/-- The scene section of `AdDisplay`: `adScript.scenes.map(…)`. -/
def renderSceneCards (a : AdScript) : List SceneCard :=
  a.scenes.map renderSceneCard

/-! ## `App` state and the reset handlers

Source: `App` component state hooks and `handleReset` / `handleHardReset`.
The interval ref is modelled by whether a rotating-message interval is
currently active (`clearInterval` deactivates it). -/

/-- The `App` component's state (one field per `useState` hook, plus the
interval ref). The image file is modelled by an opaque string token. -/
structure AppState where
  imageFile : Option String
  imagePreview : Option String
  productDescription : String
  adScript : Option AdScript
  isLoading : Bool
  error : Option String
  isVideoLoading : Bool
  videoLoadingMessage : String
  videoUrl : Option String
  videoError : Option String
  loadingIntervalActive : Bool

/-- `handleReset`: clears description, script, error, loading flags, video
state and the rotating-message interval; the commented-out lines in the
source deliberately leave `imageFile` / `imagePreview` untouched. -/
def handleReset (s : AppState) : AppState :=
  { s with
    productDescription := ""
    adScript := none
    error := none
    isLoading := false
    videoUrl := none
    videoError := none
    isVideoLoading := false
    loadingIntervalActive := false }

/-- `handleHardReset`: `handleReset` followed by clearing the image. -/
def handleHardReset (s : AppState) : AppState :=
  { handleReset s with
    imageFile := none
    imagePreview := none }

/-- Does `App` render the pre-submission upload form?  The source shows it
under `!adScript && !isLoading`. -/
def showsUploadForm (s : AppState) : Bool :=
  s.adScript.isNone && !s.isLoading

/-- Does `App` render the script-error box?  The source shows it under
`error && !isLoading`. -/
def showsErrorBox (s : AppState) : Bool :=
  s.error.isSome && !s.isLoading

/-! ## Poll-loop lemmas -/

/-- A completed operation exits the loop immediately, with no further
status check and no further wait. -/
theorem pollLoop_of_done {poll : Nat → VideoOperation} {fuel : Nat}
    {op : VideoOperation} {checks elapsed : Nat} (h : op.done = true) :
    pollLoop poll fuel op checks elapsed = some (op, checks, elapsed) := by
  cases fuel <;> simp [pollLoop, h]

/-- A pending operation makes the loop sleep one interval and issue one
status check. -/
theorem pollLoop_of_not_done {poll : Nat → VideoOperation} {f : Nat}
    {op : VideoOperation} {checks elapsed : Nat} (h : op.done = false) :
    pollLoop poll (f + 1) op checks elapsed
      = pollLoop poll f (poll checks) (checks + 1) (elapsed + POLL_INTERVAL_MS) := by
  simp [pollLoop, h]

/-- If the `N`-th status check (counting from the current index `c`) is the
first to report completion, the loop terminates there having issued exactly
`N + 1` checks, one per elapsed interval. -/
theorem pollLoop_first_done (poll : Nat → VideoOperation) :
    ∀ (N : Nat), ∀ (c e fuel : Nat) (op : VideoOperation),
      op.done = false → (poll (c + N)).done = true →
      (∀ m, m < N → (poll (c + m)).done = false) → N + 1 ≤ fuel →
      pollLoop poll fuel op c e
        = some (poll (c + N), c + N + 1, e + POLL_INTERVAL_MS * (N + 1)) := by
  intro N
  induction N with
  | zero =>
      intro c e fuel op hop hdone _ hfuel
      match fuel, hfuel with
      | f + 1, _ =>
        rw [pollLoop_of_not_done hop, pollLoop_of_done (by simpa using hdone)]
        simp
  | succ n ih =>
      intro c e fuel op hop hdone hmin hfuel
      match fuel, hfuel with
      | f + 1, hf =>
        rw [pollLoop_of_not_done hop]
        have h0 : (poll c).done = false := by simpa using hmin 0 (Nat.succ_pos n)
        have hd : (poll (c + 1 + n)).done = true := by
          rw [show c + 1 + n = c + (n + 1) from by omega]; exact hdone
        have hm : ∀ m, m < n → (poll (c + 1 + m)).done = false := by
          intro m hm'
          rw [show c + 1 + m = c + (m + 1) from by omega]
          exact hmin (m + 1) (by omega)
        rw [ih (c + 1) (e + POLL_INTERVAL_MS) f (poll c) h0 hd hm (by omega)]
        rw [show c + 1 + n = c + (n + 1) from by omega,
          show e + POLL_INTERVAL_MS + POLL_INTERVAL_MS * (n + 1)
            = e + POLL_INTERVAL_MS * (n + 1 + 1) from by ring]

/-- If no status check ever reports completion, the loop is still running
after any number of intervals. -/
theorem pollLoop_none_of_never_done {poll : Nat → VideoOperation}
    (hnever : ∀ n, (poll n).done = false) :
    ∀ (fuel : Nat) (op : VideoOperation) (c e : Nat), op.done = false →
      pollLoop poll fuel op c e = none := by
  intro fuel
  induction fuel with
  | zero => intro op c e hop; simp [pollLoop, hop]
  | succ f ih =>
      intro op c e hop
      rw [pollLoop_of_not_done hop]
      exact ih (poll c) (c + 1) (e + POLL_INTERVAL_MS) (hnever c)

/-- C1: the `generateAdVideo` poll loop issues exactly one status check per
elapsed 10-second interval (check count `N + 1` after `POLL_INTERVAL_MS *
(N + 1)` elapsed milliseconds), terminates exactly on the first polled
response whose `done` flag is true (and immediately, with zero checks, if
the initial operation is already done), and if no response ever reports
completion it never terminates, however many intervals elapse. -/
theorem generateAdVideo_pollLoop_spec (poll : Nat → VideoOperation)
    (op0 : VideoOperation) :
    (op0.done = true → ∀ fuel, pollLoop poll fuel op0 0 0 = some (op0, 0, 0)) ∧
    (op0.done = false →
      ∀ N, (poll N).done = true → (∀ m, m < N → (poll m).done = false) →
        ∀ fuel, N + 1 ≤ fuel →
          pollLoop poll fuel op0 0 0
            = some (poll N, N + 1, POLL_INTERVAL_MS * (N + 1))) ∧
    (op0.done = false → (∀ n, (poll n).done = false) →
      ∀ fuel, pollLoop poll fuel op0 0 0 = none) := by
  refine ⟨fun h _ => pollLoop_of_done h, ?_, ?_⟩
  · intro hop N hN hmin fuel hfuel
    have := pollLoop_first_done poll N 0 0 fuel op0 hop (by simpa using hN)
      (by simpa using hmin) hfuel
    simpa using this
  · intro hop hnever fuel
    exact pollLoop_none_of_never_done hnever fuel op0 0 0 hop

/-- Witness for C1: with the initial operation pending and the second
status check the first to report completion, the loop stops after exactly
2 checks and 20000 elapsed milliseconds. -/
theorem generateAdVideo_pollLoop_spec_witness :
    pollLoop (fun n => ⟨n == 1, none⟩) 5 ⟨false, none⟩ 0 0
      = some (⟨true, none⟩, 2, 20000) := by
  have h := (generateAdVideo_pollLoop_spec (fun n => ⟨n == 1, none⟩)
    ⟨false, none⟩).2.1 rfl 1 rfl (by decide) 5 (by omega)
  simpa [POLL_INTERVAL_MS] using h

/-! ## The missing-download-link path of `generateAdVideo` -/

/-- A completed operation whose first generated video carries no `uri`. -/
def completedNoLinkOp : VideoOperation :=
  { done := true
    response := some { generatedVideos := some [{ video := some { uri := none } }] } }

/-- Environment in which the video operation completes at once but its
result lacks a download URI. -/
def noLinkEnv : VideoEnv :=
  { start := .ok completedNoLinkOp
    poll := fun _ => completedNoLinkOp
    apiKey := "TEST_KEY" }

/-- C2: on a completed operation with no download URI the try-block of
`generateAdVideo` does throw the missing-result error and no computation
crashes, but that throw is intercepted by the function's own catch-block —
its message contains neither `'429'` nor `'RESOURCE_EXHAUSTED'` — so the
error `generateAdVideo` actually surfaces is the generic one, not the
distinct missing-result error the claim (and the source's own
`missingResultMsg` construction) calls for. -/
theorem generateAdVideo_missing_link_masked :
    tryGenerateVideo noLinkEnv 0 = some (.error missingResultMsg) ∧
    generateAdVideo noLinkEnv 0 = some (.error videoGenericMsg) ∧
    missingResultMsg ≠ videoGenericMsg ∧
    jsIncludes missingResultMsg "429" = false ∧
    jsIncludes missingResultMsg "RESOURCE_EXHAUSTED" = false := by
  refine ⟨rfl, ?_, by decide, by decide, by decide⟩
  have h429 : jsIncludes missingResultMsg "429" = false := by decide
  have hres : jsIncludes missingResultMsg "RESOURCE_EXHAUSTED" = false := by decide
  simp [generateAdVideo, tryGenerateVideo, noLinkEnv, completedNoLinkOp,
    pollLoop, extractDownloadLink, classifyVideoError, h429, hres]

/-! ## Error classification of `generateAdScript` -/

/-- C3: whenever the try-block of `generateAdScript` throws, the function
surfaces the rate-limit error exactly when the thrown message contains
`'429'` (the embedding of "the provider signals HTTP 429") and the generic
generation-failure error otherwise — covering, in particular, transport
failures and non-JSON response bodies — and exactly one provider call is
issued per run, so no retry is performed in either case. -/
theorem generateAdScript_error_classification :
    (∀ (env : ScriptEnv) (msg : String), scriptTryBlock env = .error msg →
      (jsIncludes msg "429" = true → generateAdScript env = .error rateLimitedMsg) ∧
      (jsIncludes msg "429" = false → generateAdScript env = .error scriptGenericMsg)) ∧
    (∀ (provider : Nat → Except String String) (parse : String → Except String Json),
      (generateAdScriptTraced provider parse).2 = 1) := by
  constructor
  · intro env msg h
    constructor <;> intro h429 <;>
      simp [generateAdScript, h, classifyScriptError, h429]
  · intro provider parse
    rfl

/-- Witness for C3: a thrown message carrying `'429'` surfaces the
rate-limit error; a JSON-parse failure message without `'429'` surfaces the
generic error. -/
theorem generateAdScript_error_classification_witness :
    generateAdScript
        { response := .error "Request failed with status 429"
          parse := fun _ => .ok .null }
      = .error rateLimitedMsg ∧
    generateAdScript
        { response := .ok "not json"
          parse := fun _ => .error "Unexpected token o in JSON at position 1" }
      = .error scriptGenericMsg := by
  constructor
  · exact (generateAdScript_error_classification.1
      { response := .error "Request failed with status 429"
        parse := fun _ => .ok .null }
      "Request failed with status 429" rfl).1 (by decide)
  · exact (generateAdScript_error_classification.1
      { response := .ok "not json"
        parse := fun _ => .error "Unexpected token o in JSON at position 1" }
      "Unexpected token o in JSON at position 1" rfl).2 (by decide)

/-! ## Absence of client-side schema validation -/

/-- C9: `generateAdScript` returns whatever JSON value the parse produced,
with no validation against the `AdScript` schema — in particular a value
lacking the required `title` / `tagline` / `scenes` fields is still
returned as the script — and the error path is taken exactly when the
transport call or the JSON parse failed. -/
theorem generateAdScript_no_validation :
    (∀ (env : ScriptEnv) (text : String) (j : Json),
      env.response = .ok text → env.parse text.trim = .ok j →
      generateAdScript env = .ok j) ∧
    (∀ (env : ScriptEnv) (text : String) (j : Json),
      env.response = .ok text → env.parse text.trim = .ok j →
      isAdScriptShaped j = false → generateAdScript env = .ok j) ∧
    (∀ env : ScriptEnv, (∃ msg, generateAdScript env = .error msg) →
      (∃ msg, env.response = .error msg) ∨
      (∃ (text : String) (msg : String),
        env.response = .ok text ∧ env.parse text.trim = .error msg)) := by
  have hok : ∀ (env : ScriptEnv) (text : String) (j : Json),
      env.response = .ok text → env.parse text.trim = .ok j →
      generateAdScript env = .ok j := by
    intro env text j hresp hparse
    simp [generateAdScript, scriptTryBlock, hresp, hparse]
  refine ⟨hok, fun env text j hresp hparse _ => hok env text j hresp hparse, ?_⟩
  intro env ⟨msg, herr⟩
  cases hresp : env.response with
  | error m => exact Or.inl ⟨m, rfl⟩
  | ok text =>
      cases hparse : env.parse text.trim with
      | error m => exact Or.inr ⟨text, m, rfl, hparse⟩
      | ok j =>
          rw [hok env text j hresp hparse] at herr
          exact absurd herr (by simp)

/-- Witness for C9: a bare string parses, fails the schema shape, and is
still returned as the script. -/
theorem generateAdScript_no_validation_witness :
    isAdScriptShaped (.str "oops") = false ∧
    generateAdScript { response := .ok "x", parse := fun _ => .ok (.str "oops") }
      = .ok (.str "oops") :=
  ⟨rfl, generateAdScript_no_validation.2.1 _ "x" (.str "oops") rfl rfl rfl⟩

/-! ## Scene numbering is not enforced by the client -/

/-- A schema-shaped provider response whose single scene is numbered 7
rather than 1. -/
def nonSequentialScript : Json :=
  .obj [("title", .str "T"), ("tagline", .str "L"),
    ("scenes", .arr [.obj [("sceneNumber", .num 7), ("setting", .str "s"),
      ("action", .str "a"), ("dialogue", .str "None"), ("sound", .str "m")]])]

/-- Counterexample to C4: `generateAdScript` returns a schema-shaped
script whose scene numbers are not sequential from 1, because the client
performs no validation of the parsed value. -/
theorem generateAdScript_nonSequential_counterexample :
    generateAdScript
        { response := .ok "{}", parse := fun _ => .ok nonSequentialScript }
      = .ok nonSequentialScript ∧
    isAdScriptShaped nonSequentialScript = true ∧
    sceneNumbersSequential nonSequentialScript = false := by
  refine ⟨rfl, rfl, by decide⟩

/-- C4 (amended): the scenes of a returned `AdScript` — and hence their
`sceneNumber`s — are exactly those of the provider's parsed JSON, so a
returned script has scene numbers sequential from 1 exactly when the
provider supplied them that way; the client enforces nothing. -/
theorem generateAdScript_sceneNumbers_passthrough (env : ScriptEnv)
    (text : String) (j : Json) (hresp : env.response = .ok text)
    (hparse : env.parse text.trim = .ok j) :
    ∃ r, generateAdScript env = .ok r ∧
      scenesOf r = scenesOf j ∧
      sceneNumbersSequential r = sceneNumbersSequential j := by
  refine ⟨j, ?_, rfl, rfl⟩
  simp [generateAdScript, scriptTryBlock, hresp, hparse]

/-- Witness for the amended C4: the non-sequential script above is passed
through unchanged. -/
theorem generateAdScript_sceneNumbers_passthrough_witness :
    ∃ r, generateAdScript
        { response := .ok "{}", parse := fun _ => .ok nonSequentialScript }
      = .ok r ∧
      scenesOf r = scenesOf nonSequentialScript ∧
      sceneNumbersSequential r = sceneNumbersSequential nonSequentialScript :=
  generateAdScript_sceneNumbers_passthrough
    { response := .ok "{}", parse := fun _ => .ok nonSequentialScript }
    "{}" nonSequentialScript rfl rfl

/-! ## `AdDisplay` scene-card rendering -/

/-- A concrete three-scene script for the specified scenario. -/
def headphonesScript : AdScript :=
  { title := "Unleash the Sound"
    tagline := "Your World, Your Music."
    scenes :=
      [ { sceneNumber := 1, setting := "A vibrant, sunlit city park."
          action := "A jogger puts on wireless headphones."
          dialogue := "None", sound := "Upbeat synth intro." }
      , { sceneNumber := 2, setting := "A busy subway platform."
          action := "The noise of the crowd fades away."
          dialogue := "VO: Silence the world.", sound := "Music swells." }
      , { sceneNumber := 3, setting := "A rooftop at sunset."
          action := "Product close-up with the logo."
          dialogue := "VO: Your World, Your Music.", sound := "Full track." } ] }

/-- C5: `AdDisplay` renders exactly one scene card per scene, in the array
order — the card list is the image of the scene list, index by index — and
on the concrete three-scene script the three cards appear with headings
`SCENE 1`, `SCENE 2`, `SCENE 3` in that order. -/
theorem adDisplay_scene_cards :
    (∀ a : AdScript, (renderSceneCards a).length = a.scenes.length) ∧
    (∀ (a : AdScript) (i : Nat),
      (renderSceneCards a)[i]? = (a.scenes[i]?).map renderSceneCard) ∧
    (renderSceneCards headphonesScript).length = 3 ∧
    (renderSceneCards headphonesScript).map SceneCard.heading
      = ["SCENE 1", "SCENE 2", "SCENE 3"] := by
  refine ⟨?_, ?_, rfl, ?_⟩
  · intro a; simp [renderSceneCards]
  · intro a i; simp [renderSceneCards]
  · simp [renderSceneCards, headphonesScript, renderSceneCard]
    decide

/-! ## Reset handlers -/

/-- C6: from any state showing a script error, `handleReset` clears the
error, the script, both loading flags, the video URL and error, the
description and the rotating-message interval, while leaving the selected
image and its preview untouched, returning the UI to the pre-submission
upload form; `handleHardReset` does all of that and additionally clears
the image and its preview. -/
theorem reset_after_script_error (s : AppState) (msg : String)
    (_h : s.error = some msg) :
    (handleReset s).error = none ∧
    (handleReset s).adScript = none ∧
    (handleReset s).isLoading = false ∧
    (handleReset s).videoUrl = none ∧
    (handleReset s).videoError = none ∧
    (handleReset s).isVideoLoading = false ∧
    (handleReset s).loadingIntervalActive = false ∧
    (handleReset s).productDescription = "" ∧
    (handleReset s).imageFile = s.imageFile ∧
    (handleReset s).imagePreview = s.imagePreview ∧
    showsUploadForm (handleReset s) = true ∧
    showsErrorBox (handleReset s) = false ∧
    (handleHardReset s).imageFile = none ∧
    (handleHardReset s).imagePreview = none ∧
    (handleHardReset s).error = none ∧
    (handleHardReset s).adScript = none ∧
    showsUploadForm (handleHardReset s) = true :=
  ⟨rfl, rfl, rfl, rfl, rfl, rfl, rfl, rfl, rfl, rfl, rfl, rfl, rfl, rfl, rfl,
    rfl, rfl⟩

/-- A concrete state in the script-error configuration. -/
def erroredState : AppState :=
  { imageFile := some "product.png"
    imagePreview := some "data-url"
    productDescription := "wireless headphones"
    adScript := none
    isLoading := false
    error := some scriptGenericMsg
    isVideoLoading := false
    videoLoadingMessage := "Warming up the virtual cameras..."
    videoUrl := none
    videoError := none
    loadingIntervalActive := false }

/-- Witness for C6: applying the reset theorem at the concrete errored
state. -/
theorem reset_after_script_error_witness :
    (handleReset erroredState).error = none ∧
    (handleReset erroredState).imageFile = erroredState.imageFile ∧
    (handleHardReset erroredState).imageFile = none :=
  have h := reset_after_script_error erroredState scriptGenericMsg rfl
  ⟨h.1, h.2.2.2.2.2.2.2.2.1, h.2.2.2.2.2.2.2.2.2.2.2.2.1⟩

/-! ## Successful video generation returns the link with the key appended -/

/-- C7: every successful `generateAdVideo` run went through a completed
poll, extracted a non-empty download URI from the operation result, and
returned exactly that URI with `&key=` and the configured API key appended. -/
theorem generateAdVideo_success_link (env : VideoEnv) (fuel : Nat)
    (result : String) (h : generateAdVideo env fuel = some (.ok result)) :
    ∃ (op0 finalOp : VideoOperation) (checks elapsed : Nat) (uri : String),
      env.start = .ok op0 ∧
      pollLoop env.poll fuel op0 0 0 = some (finalOp, checks, elapsed) ∧
      extractDownloadLink finalOp = some uri ∧
      uri ≠ "" ∧
      result = uri ++ "&key=" ++ env.apiKey := by
  have hmap : tryGenerateVideo env fuel = some (.ok result) := by
    unfold generateAdVideo at h
    cases htb : tryGenerateVideo env fuel with
    | none => rw [htb] at h; simp at h
    | some r =>
        rw [htb] at h
        cases r with
        | ok link => simp at h; subst h; rfl
        | error msg => simp at h
  unfold tryGenerateVideo at hmap
  split at hmap
  · simp at hmap
  · rename_i op0 hstart
    split at hmap
    · simp at hmap
    · rename_i finalOp checks elapsed hpl
      split at hmap
      · simp at hmap
      · rename_i link hex
        split at hmap
        · simp at hmap
        · rename_i hlink
          simp at hmap
          exact ⟨op0, finalOp, checks, elapsed, link, hstart, hpl, hex,
            hlink, hmap.symm⟩

/-- An operation that is already complete with a concrete download URI. -/
def readyLinkEnv : VideoEnv :=
  { start := .ok
      { done := true
        response := some
          { generatedVideos :=
              some [{ video := some { uri := some "https://dl.example/v?id=1" } }] } }
    poll := fun _ => { done := true, response := none }
    apiKey := "SECRET" }

/-- Witness for C7: the concrete successful run returns the URI with the
key appended. -/
theorem generateAdVideo_success_link_witness :
    ∃ (op0 finalOp : VideoOperation) (checks elapsed : Nat) (uri : String),
      readyLinkEnv.start = .ok op0 ∧
      pollLoop readyLinkEnv.poll 0 op0 0 0 = some (finalOp, checks, elapsed) ∧
      extractDownloadLink finalOp = some uri ∧
      uri ≠ "" ∧
      "https://dl.example/v?id=1&key=SECRET" = uri ++ "&key=" ++ readyLinkEnv.apiKey :=
  generateAdVideo_success_link readyLinkEnv 0 "https://dl.example/v?id=1&key=SECRET" rfl

/-! ## Startup check on the API key -/

/-- Counterexample to C8 as stated: an `API_KEY` that is present in the
environment but equal to the empty string is falsy in JavaScript, so the
module-level check still throws — "present implies startup succeeds" fails. -/
theorem moduleInit_present_empty_fatal :
    (some "" : Option String).isSome = true ∧
    moduleInit (some "") = .error apiKeyMissingMsg :=
  ⟨rfl, rfl⟩

/-- C8 (amended): the module fails fatally at startup exactly when the
`API_KEY` environment value is absent or empty (JavaScript-falsy), and
starts up successfully — configuring the client with that key — whenever a
non-empty key is present. -/
theorem moduleInit_spec (k : Option String) :
    (k = none ∨ k = some "" → moduleInit k = .error apiKeyMissingMsg) ∧
    (∀ s, k = some s → s ≠ "" → moduleInit k = .ok s) := by
  constructor
  · rintro (rfl | rfl) <;> rfl
  · rintro s rfl hs
    simp [moduleInit, jsFalsyStr, hs]

/-- Witness for the amended C8: an unset key is fatal, a non-empty key
starts up. -/
theorem moduleInit_spec_witness :
    moduleInit none = .error apiKeyMissingMsg ∧
    moduleInit (some "AIza-test") = .ok "AIza-test" :=
  ⟨(moduleInit_spec none).1 (Or.inl rfl),
    (moduleInit_spec (some "AIza-test")).2 "AIza-test" rfl (by decide)⟩
